import Mathlib

/-!
Verification of the ShareFlow backend (Rust) against its natural-language
specification.  The Rust sources under `src/backend/src/` are shallowly
embedded: byte streams become `List Nat` (every encoder output byte is
`< 256`), Rust strings on the wire become their UTF-8 byte sequences,
`Instant`s become natural-number milliseconds, and the asynchronous
coordinator of `main.rs` becomes a transition system whose events are the
mutex-guarded handler bodies executed atomically.
-/

namespace ShareFlow

/-! ## Byte-level codec (src/backend/src/transport.rs, bincode legacy config)

`bincode::serialize` / `bincode::deserialize` (bincode 1.x crate-level
functions) use fixed-width little-endian integer encoding, a `u32` enum
variant tag, a `u64` byte-length prefix for strings, and allow trailing
bytes on deserialization.  These definitions mirror that layout. -/

/-- A byte stream: each element is one byte (encoder outputs are `< 256`). -/
abbrev Bytes := List Nat

/-- Little-endian 4-byte image of a 32-bit value (`u32::to_le_bytes`). -/
def u32leBytes (n : Nat) : Bytes :=
  [n % 256, n / 256 % 256, n / 65536 % 256, n / 16777216 % 256]

/-- Little-endian 8-byte image of a 64-bit value (`u64::to_le_bytes`). -/
def u64leBytes (n : Nat) : Bytes :=
  [n % 256, n / 256 % 256, n / 65536 % 256, n / 16777216 % 256,
   n / 4294967296 % 256, n / 1099511627776 % 256,
   n / 281474976710656 % 256, n / 72057594037927936 % 256]

/-- Little-endian 2-byte image of a 16-bit value (`u16::to_le_bytes`). -/
def u16leBytes (n : Nat) : Bytes := [n % 256, n / 256 % 256]

/-- Big-endian 4-byte image of a 32-bit value (`u32::to_be_bytes`), used for
the frame length prefix in `Transport::send_tcp`. -/
def beU32Bytes (n : Nat) : Bytes :=
  [n / 16777216 % 256, n / 65536 % 256, n / 256 % 256, n % 256]

/-- bincode serializes `bool` as one byte, `1` for `true` and `0` for `false`. -/
def boolByte (b : Bool) : Nat := if b then 1 else 0

/-- Two's-complement little-endian image of an `i32`. -/
def i32leBytes (x : Int) : Bytes := u32leBytes (x % 4294967296).toNat

/-- Read a little-endian `u32`, returning the value and the remaining bytes. -/
def readU32le : Bytes → Option (Nat × Bytes)
  | b0 :: b1 :: b2 :: b3 :: rest =>
      some (b0 + 256 * b1 + 65536 * b2 + 16777216 * b3, rest)
  | _ => none

/-- Read a little-endian `u64`. -/
def readU64le : Bytes → Option (Nat × Bytes)
  | b0 :: b1 :: b2 :: b3 :: b4 :: b5 :: b6 :: b7 :: rest =>
      some (b0 + 256 * b1 + 65536 * b2 + 16777216 * b3 + 4294967296 * b4 +
        1099511627776 * b5 + 281474976710656 * b6 + 72057594037927936 * b7, rest)
  | _ => none

/-- Read a little-endian `u16`. -/
def readU16le : Bytes → Option (Nat × Bytes)
  | b0 :: b1 :: rest => some (b0 + 256 * b1, rest)
  | _ => none

/-- Read one byte (`u8`). -/
def readByte : Bytes → Option (Nat × Bytes)
  | b :: rest => some (b, rest)
  | _ => none

/-- Read a bincode `bool`: byte `1` is `true`, `0` is `false`, anything else is
an `InvalidBoolEncoding` error. -/
def readBool : Bytes → Option (Bool × Bytes)
  | b :: rest =>
      if b = 1 then some (true, rest)
      else if b = 0 then some (false, rest) else none
  | _ => none

/-- Read a little-endian two's-complement `i32`. -/
def readI32le (bs : Bytes) : Option (Int × Bytes) :=
  (readU32le bs).map fun p =>
    (if p.1 < 2147483648 then (p.1 : Int) else (p.1 : Int) - 4294967296, p.2)

/-- Read exactly `n` raw bytes; like `read_exact`, fails if fewer are available. -/
def readBytes (n : Nat) (bs : Bytes) : Option (Bytes × Bytes) :=
  if n ≤ bs.length then some (bs.take n, bs.drop n) else none

/-- Read a big-endian `u32` (`u32::from_be_bytes` on the 4-byte prefix). -/
def readBeU32 : Bytes → Option (Nat × Bytes)
  | b0 :: b1 :: b2 :: b3 :: rest =>
      some (16777216 * b0 + 65536 * b1 + 256 * b2 + b3, rest)
  | _ => none

/-! ## The wire message variant set (src/backend/src/protocol.rs) -/

/-- `protocol::Message`.  String fields (`id`, `name`) are modelled as their
UTF-8 byte sequences. -/
inductive Message where
  | Discovery (id name : Bytes) (port : Nat)
  | MouseMove (x y : Int)
  | MouseClick (button : Nat) (state : Bool)
  | KeyPress (key : Nat) (state : Bool)
  | ConnectRequest
  | ConnectResponse (success : Bool)
  | Disconnect
deriving DecidableEq

/-- Range constraints that the Rust field types (`u16`, `i32`, `u8`, `u32`,
`String` with a `u64` length) guarantee by construction. -/
def Message.Wf : Message → Prop
  | .Discovery id name port =>
      id.length < 18446744073709551616 ∧ name.length < 18446744073709551616 ∧
      port < 65536
  | .MouseMove x y =>
      -2147483648 ≤ x ∧ x < 2147483648 ∧ -2147483648 ≤ y ∧ y < 2147483648
  | .MouseClick button _ => button < 256
  | .KeyPress key _ => key < 4294967296
  | .ConnectRequest => True
  | .ConnectResponse _ => True
  | .Disconnect => True

instance (m : Message) : Decidable m.Wf := by
  cases m <;> simp only [Message.Wf] <;> infer_instance

/-- `bincode::serialize` of a `Message` (legacy config: fixint little-endian,
`u32` variant tag, `u64` string length prefix). -/
def serializeMessage : Message → Bytes
  | .Discovery id name port =>
      u32leBytes 0 ++ u64leBytes id.length ++ id ++
        u64leBytes name.length ++ name ++ u16leBytes port
  | .MouseMove x y => u32leBytes 1 ++ i32leBytes x ++ i32leBytes y
  | .MouseClick button state => u32leBytes 2 ++ [button % 256] ++ [boolByte state]
  | .KeyPress key state => u32leBytes 3 ++ u32leBytes key ++ [boolByte state]
  | .ConnectRequest => u32leBytes 4
  | .ConnectResponse success => u32leBytes 5 ++ [boolByte success]
  | .Disconnect => u32leBytes 6

/-- `bincode::deserialize` of a `Message`, as a consuming parser returning the
remaining bytes.  An unknown variant tag is an error. -/
def parseMessage (bs : Bytes) : Option (Message × Bytes) := do
  let (tag, r) ← readU32le bs
  match tag with
  | 0 =>
      let (idLen, r) ← readU64le r
      let (id, r) ← readBytes idLen r
      let (nameLen, r) ← readU64le r
      let (name, r) ← readBytes nameLen r
      let (port, r) ← readU16le r
      pure (.Discovery id name port, r)
  | 1 =>
      let (x, r) ← readI32le r
      let (y, r) ← readI32le r
      pure (.MouseMove x y, r)
  | 2 =>
      let (button, r) ← readByte r
      let (state, r) ← readBool r
      pure (.MouseClick button state, r)
  | 3 =>
      let (key, r) ← readU32le r
      let (state, r) ← readBool r
      pure (.KeyPress key state, r)
  | 4 => pure (.ConnectRequest, r)
  | 5 =>
      let (state, r) ← readBool r
      pure (.ConnectResponse state, r)
  | 6 => pure (.Disconnect, r)
  | _ => none

/-- `bincode::deserialize` (crate-level: trailing bytes are allowed). -/
def deserializeMessage (bs : Bytes) : Option Message :=
  (parseMessage bs).map (·.1)

/-- `Transport::send_tcp` / `send_tcp_split`: serialize, take the length
`as u32`, and emit one contiguous buffer `be32(len) ++ payload`. -/
def send_tcp (m : Message) : Bytes :=
  let data := serializeMessage m
  beU32Bytes (data.length % 4294967296) ++ data

/-- `Transport::recv_tcp` / `recv_tcp_split`: `read_exact` a 4-byte big-endian
length, `read_exact` exactly that many payload bytes (no size bound is
checked), then deserialize. -/
def recv_tcp (input : Bytes) : Option Message := do
  let (len, r) ← readBeU32 input
  let (data, _) ← readBytes len r
  deserializeMessage data

/-- The length a frame declares in its first four bytes. -/
def declaredLen (input : Bytes) : Option Nat :=
  (readBeU32 input).map (·.1)

/-- A well-formed `Discovery` message whose serialized payload is 65537 bytes,
one byte over the 64 KiB frame limit demanded by the specification. -/
def discoveryOversized : Message :=
  .Discovery (List.replicate 65515 97) [] 8080

/-! ## rdev keys, input capture (src/backend/src/input_capture.rs) and
input replay (src/backend/src/input_simulator.rs)

`rdev::Key` is modelled by the variants the source names, plus `other s`
standing for any of the remaining rdev keys, carrying its Debug-format
name (all of which fall into the wildcard arms of the source matches).
`f64` coordinates carry integral pixel values in practice and are modelled
as integers. -/

inductive RKey where
  | KeyA | KeyB | KeyC | KeyD | KeyE | KeyF | KeyG | KeyH | KeyI | KeyJ
  | KeyK | KeyL | KeyM | KeyN | KeyO | KeyP | KeyQ | KeyR | KeyS | KeyT
  | KeyU | KeyV | KeyW | KeyX | KeyY | KeyZ
  | Num0 | Num1 | Num2 | Num3 | Num4 | Num5 | Num6 | Num7 | Num8 | Num9
  | Return | Escape | Space | Backspace | Tab
  | Minus | Equal | LeftBracket | RightBracket | BackSlash
  | SemiColon | Quote | Comma | Dot | Slash | BackQuote
  | ShiftLeft | ShiftRight | ControlLeft | ControlRight
  | Alt | AltGr | MetaLeft | MetaRight
  | other (name : String)

/-- An injective code for `RKey`, used to decide equality without the
quadratic derived instance. -/
def rkeyCode : RKey → Nat ⊕ String
  | .KeyA => .inl 0 | .KeyB => .inl 1 | .KeyC => .inl 2 | .KeyD => .inl 3
  | .KeyE => .inl 4 | .KeyF => .inl 5 | .KeyG => .inl 6 | .KeyH => .inl 7
  | .KeyI => .inl 8 | .KeyJ => .inl 9 | .KeyK => .inl 10 | .KeyL => .inl 11
  | .KeyM => .inl 12 | .KeyN => .inl 13 | .KeyO => .inl 14 | .KeyP => .inl 15
  | .KeyQ => .inl 16 | .KeyR => .inl 17 | .KeyS => .inl 18 | .KeyT => .inl 19
  | .KeyU => .inl 20 | .KeyV => .inl 21 | .KeyW => .inl 22 | .KeyX => .inl 23
  | .KeyY => .inl 24 | .KeyZ => .inl 25
  | .Num0 => .inl 26 | .Num1 => .inl 27 | .Num2 => .inl 28 | .Num3 => .inl 29
  | .Num4 => .inl 30 | .Num5 => .inl 31 | .Num6 => .inl 32 | .Num7 => .inl 33
  | .Num8 => .inl 34 | .Num9 => .inl 35
  | .Return => .inl 36 | .Escape => .inl 37 | .Space => .inl 38
  | .Backspace => .inl 39 | .Tab => .inl 40
  | .Minus => .inl 41 | .Equal => .inl 42 | .LeftBracket => .inl 43
  | .RightBracket => .inl 44 | .BackSlash => .inl 45
  | .SemiColon => .inl 46 | .Quote => .inl 47 | .Comma => .inl 48
  | .Dot => .inl 49 | .Slash => .inl 50 | .BackQuote => .inl 51
  | .ShiftLeft => .inl 52 | .ShiftRight => .inl 53
  | .ControlLeft => .inl 54 | .ControlRight => .inl 55
  | .Alt => .inl 56 | .AltGr => .inl 57
  | .MetaLeft => .inl 58 | .MetaRight => .inl 59
  | .other s => .inr s

/-- The left inverse of `rkeyCode`. -/
def rkeyOfCode : Nat ⊕ String → RKey
  | .inl 0 => .KeyA | .inl 1 => .KeyB | .inl 2 => .KeyC | .inl 3 => .KeyD
  | .inl 4 => .KeyE | .inl 5 => .KeyF | .inl 6 => .KeyG | .inl 7 => .KeyH
  | .inl 8 => .KeyI | .inl 9 => .KeyJ | .inl 10 => .KeyK | .inl 11 => .KeyL
  | .inl 12 => .KeyM | .inl 13 => .KeyN | .inl 14 => .KeyO | .inl 15 => .KeyP
  | .inl 16 => .KeyQ | .inl 17 => .KeyR | .inl 18 => .KeyS | .inl 19 => .KeyT
  | .inl 20 => .KeyU | .inl 21 => .KeyV | .inl 22 => .KeyW | .inl 23 => .KeyX
  | .inl 24 => .KeyY | .inl 25 => .KeyZ
  | .inl 26 => .Num0 | .inl 27 => .Num1 | .inl 28 => .Num2 | .inl 29 => .Num3
  | .inl 30 => .Num4 | .inl 31 => .Num5 | .inl 32 => .Num6 | .inl 33 => .Num7
  | .inl 34 => .Num8 | .inl 35 => .Num9
  | .inl 36 => .Return | .inl 37 => .Escape | .inl 38 => .Space
  | .inl 39 => .Backspace | .inl 40 => .Tab
  | .inl 41 => .Minus | .inl 42 => .Equal | .inl 43 => .LeftBracket
  | .inl 44 => .RightBracket | .inl 45 => .BackSlash
  | .inl 46 => .SemiColon | .inl 47 => .Quote | .inl 48 => .Comma
  | .inl 49 => .Dot | .inl 50 => .Slash | .inl 51 => .BackQuote
  | .inl 52 => .ShiftLeft | .inl 53 => .ShiftRight
  | .inl 54 => .ControlLeft | .inl 55 => .ControlRight
  | .inl 56 => .Alt | .inl 57 => .AltGr
  | .inl 58 => .MetaLeft | .inl 59 => .MetaRight
  | .inl _ => .other ""
  | .inr s => .other s

instance : DecidableEq RKey := fun a b =>
  decidable_of_iff (rkeyCode a = rkeyCode b)
    ⟨fun h => by
        have hc : ∀ k : RKey, rkeyOfCode (rkeyCode k) = k := by
          intro k
          cases k <;> rfl
        rw [← hc a, h, hc b],
      fun h => h ▸ rfl⟩

/-- `input_capture::rdev_key_to_code`: the wire code the capture side sends
for a key.  Every key not named in the match (modifiers included) hits the
wildcard arm and yields 0. -/
def rdev_key_to_code : RKey → Nat
  | .KeyA => 65 | .KeyB => 66 | .KeyC => 67 | .KeyD => 68
  | .KeyE => 69 | .KeyF => 70 | .KeyG => 71 | .KeyH => 72
  | .KeyI => 73 | .KeyJ => 74 | .KeyK => 75 | .KeyL => 76
  | .KeyM => 77 | .KeyN => 78 | .KeyO => 79 | .KeyP => 80
  | .KeyQ => 81 | .KeyR => 82 | .KeyS => 83 | .KeyT => 84
  | .KeyU => 85 | .KeyV => 86 | .KeyW => 87 | .KeyX => 88
  | .KeyY => 89 | .KeyZ => 90
  | .Num0 => 48 | .Num1 => 49 | .Num2 => 50 | .Num3 => 51
  | .Num4 => 52 | .Num5 => 53 | .Num6 => 54 | .Num7 => 55
  | .Num8 => 56 | .Num9 => 57
  | .Return => 13
  | .Escape => 27
  | .Space => 32
  | .Backspace => 8
  | .Tab => 9
  | .Minus => 45
  | .Equal => 61
  | .LeftBracket => 91
  | .RightBracket => 93
  | .BackSlash => 92
  | .SemiColon => 59
  | .Quote => 39
  | .Comma => 44
  | .Dot => 46
  | .Slash => 47
  | .BackQuote => 96
  | _ => 0

/-- The `format!("{:?}", key)` Debug name of an rdev key. -/
def rkeyName : RKey → String
  | .KeyA => "KeyA" | .KeyB => "KeyB" | .KeyC => "KeyC" | .KeyD => "KeyD"
  | .KeyE => "KeyE" | .KeyF => "KeyF" | .KeyG => "KeyG" | .KeyH => "KeyH"
  | .KeyI => "KeyI" | .KeyJ => "KeyJ" | .KeyK => "KeyK" | .KeyL => "KeyL"
  | .KeyM => "KeyM" | .KeyN => "KeyN" | .KeyO => "KeyO" | .KeyP => "KeyP"
  | .KeyQ => "KeyQ" | .KeyR => "KeyR" | .KeyS => "KeyS" | .KeyT => "KeyT"
  | .KeyU => "KeyU" | .KeyV => "KeyV" | .KeyW => "KeyW" | .KeyX => "KeyX"
  | .KeyY => "KeyY" | .KeyZ => "KeyZ"
  | .Num0 => "Num0" | .Num1 => "Num1" | .Num2 => "Num2" | .Num3 => "Num3"
  | .Num4 => "Num4" | .Num5 => "Num5" | .Num6 => "Num6" | .Num7 => "Num7"
  | .Num8 => "Num8" | .Num9 => "Num9"
  | .Return => "Return" | .Escape => "Escape" | .Space => "Space"
  | .Backspace => "Backspace" | .Tab => "Tab"
  | .Minus => "Minus" | .Equal => "Equal" | .LeftBracket => "LeftBracket"
  | .RightBracket => "RightBracket" | .BackSlash => "BackSlash"
  | .SemiColon => "SemiColon" | .Quote => "Quote" | .Comma => "Comma"
  | .Dot => "Dot" | .Slash => "Slash" | .BackQuote => "BackQuote"
  | .ShiftLeft => "ShiftLeft" | .ShiftRight => "ShiftRight"
  | .ControlLeft => "ControlLeft" | .ControlRight => "ControlRight"
  | .Alt => "Alt" | .AltGr => "AltGr"
  | .MetaLeft => "MetaLeft" | .MetaRight => "MetaRight"
  | .other name => name

/-- `InputSimulator::map_key_code`: wire code to host key.  Codes 91 and 92
go to the Meta modifiers; the bracket arms are commented out in the source
because of that collision. -/
def map_key_code : Nat → Option RKey
  | 65 => some .KeyA | 66 => some .KeyB | 67 => some .KeyC
  | 68 => some .KeyD | 69 => some .KeyE | 70 => some .KeyF
  | 71 => some .KeyG | 72 => some .KeyH | 73 => some .KeyI
  | 74 => some .KeyJ | 75 => some .KeyK | 76 => some .KeyL
  | 77 => some .KeyM | 78 => some .KeyN | 79 => some .KeyO
  | 80 => some .KeyP | 81 => some .KeyQ | 82 => some .KeyR
  | 83 => some .KeyS | 84 => some .KeyT | 85 => some .KeyU
  | 86 => some .KeyV | 87 => some .KeyW | 88 => some .KeyX
  | 89 => some .KeyY | 90 => some .KeyZ
  | 97 => some .KeyA | 98 => some .KeyB | 99 => some .KeyC
  | 100 => some .KeyD | 101 => some .KeyE | 102 => some .KeyF
  | 103 => some .KeyG | 104 => some .KeyH | 105 => some .KeyI
  | 106 => some .KeyJ | 107 => some .KeyK | 108 => some .KeyL
  | 109 => some .KeyM | 110 => some .KeyN | 111 => some .KeyO
  | 112 => some .KeyP | 113 => some .KeyQ | 114 => some .KeyR
  | 115 => some .KeyS | 116 => some .KeyT | 117 => some .KeyU
  | 118 => some .KeyV | 119 => some .KeyW | 120 => some .KeyX
  | 121 => some .KeyY | 122 => some .KeyZ
  | 48 => some .Num0 | 49 => some .Num1 | 50 => some .Num2
  | 51 => some .Num3 | 52 => some .Num4 | 53 => some .Num5
  | 54 => some .Num6 | 55 => some .Num7 | 56 => some .Num8
  | 57 => some .Num9
  | 13 => some .Return
  | 10 => some .Return
  | 27 => some .Escape
  | 32 => some .Space
  | 8 => some .Backspace
  | 9 => some .Tab
  | 33 => some .Num1
  | 64 => some .Num2
  | 35 => some .Num3
  | 36 => some .Num4
  | 37 => some .Num5
  | 94 => some .Num6
  | 38 => some .Num7
  | 42 => some .Num8
  | 40 => some .Num9
  | 41 => some .Num0
  | 45 => some .Minus
  | 95 => some .Minus
  | 61 => some .Equal
  | 43 => some .Equal
  | 93 => some .RightBracket
  | 59 => some .SemiColon
  | 58 => some .SemiColon
  | 39 => some .Quote
  | 34 => some .Quote
  | 44 => some .Comma
  | 60 => some .Comma
  | 46 => some .Dot
  | 62 => some .Dot
  | 47 => some .Slash
  | 63 => some .Slash
  | 96 => some .BackQuote
  | 126 => some .BackQuote
  | 16 => some .ShiftLeft
  | 160 => some .ShiftLeft
  | 161 => some .ShiftRight
  | 17 => some .ControlLeft
  | 162 => some .ControlLeft
  | 163 => some .ControlRight
  | 18 => some .Alt
  | 164 => some .Alt
  | 165 => some .AltGr
  | 91 => some .MetaLeft
  | 92 => some .MetaRight
  | _ => none

/-- A synthetic input event injected by the simulator via `rdev::simulate`. -/
inductive SimEvent where
  | pressKey (k : RKey)
  | releaseKey (k : RKey)
deriving DecidableEq

/-- `InputSimulator::key_press`: map the wire code; if unmapped, do nothing
(`if let Some`), injecting no event and never raising. -/
def key_press (keyCode : Nat) (isDown : Bool) : Option SimEvent :=
  (map_key_code keyCode).map fun k =>
    if isDown then .pressKey k else .releaseKey k

/-- The codes the simulator maps for the punctuation characters other than
the colliding 91 (the bracket) and 92 (the backslash). -/
def punctuationCodes : List Nat :=
  [33, 34, 35, 36, 37, 38, 39, 40, 41, 42, 43, 44, 45, 46, 47,
   58, 59, 60, 61, 62, 63, 64, 93, 94, 95, 96, 126]

/-- `input_capture::InputEventData` (f64 coordinate fields as integers). -/
structure InputEventData where
  eventType : String
  key : Option String
  keyCode : Option Nat
  x : Option Int
  y : Option Int
  dx : Option Int
  dy : Option Int
deriving DecidableEq

/-- `input_capture::CaptureControl`. -/
inductive CaptureControl where
  | inputEvent (e : InputEventData)
  | exitRequested
deriving DecidableEq

/-- The event data the grab callback sends for a key press. -/
def keydownEvent (k : RKey) : InputEventData :=
  { eventType := "keydown", key := some (rkeyName k),
    keyCode := some (rdev_key_to_code k),
    x := none, y := none, dx := none, dy := none }

/-- The event data the grab callback sends for a key release. -/
def keyupEvent (k : RKey) : InputEventData :=
  { eventType := "keyup", key := some (rkeyName k),
    keyCode := some (rdev_key_to_code k),
    x := none, y := none, dx := none, dy := none }

/-- `rdev::Button`. -/
inductive RButton where
  | left | right | middle | otherBtn (n : Nat)
deriving DecidableEq

/-- The button name the capture side uses (`_ => "button0"` wildcard). -/
def buttonName : RButton → String
  | .left => "button0"
  | .right => "button1"
  | .middle => "button2"
  | .otherBtn _ => "button0"

/-- `rdev::EventType` as seen by the grab callback. -/
inductive REvent where
  | mouseMove (x y : Int)
  | keyPressEv (k : RKey)
  | keyReleaseEv (k : RKey)
  | buttonPress (b : RButton)
  | buttonRelease (b : RButton)
  | wheel (dx dy : Int)
deriving DecidableEq

/-- The mutable state the grab callback closes over: the stop flag, the two
tracked modifiers, the mouse anchor (`last_mouse_pos`) and the long-press
table (`key_press_times`, instants as milliseconds). -/
structure CaptureState where
  shouldStop : Bool
  ctrlPressed : Bool
  altPressed : Bool
  lastMousePos : Option (Int × Int)
  keyPressTimes : List (String × Nat)
deriving DecidableEq

/-- `HashMap::entry(key).or_insert_with(Instant::now)`. -/
def recordPress (key : String) (now : Nat)
    (times : List (String × Nat)) : List (String × Nat) :=
  if times.any (fun p => p.1 == key) then times else (key, now) :: times

/-- `HashMap::remove(key)`. -/
def removePress (key : String)
    (times : List (String × Nat)) : List (String × Nat) :=
  times.filter (fun p => p.1 ≠ key)

/-- The modifier-tracking phase of the grab callback: Control and Alt press
and release events update the two tracked flags. -/
def trackModifiers (s : CaptureState) (e : REvent) : CaptureState :=
  match e with
  | .keyPressEv .ControlLeft => { s with ctrlPressed := true }
  | .keyPressEv .ControlRight => { s with ctrlPressed := true }
  | .keyReleaseEv .ControlLeft => { s with ctrlPressed := false }
  | .keyReleaseEv .ControlRight => { s with ctrlPressed := false }
  | .keyPressEv .Alt => { s with altPressed := true }
  | .keyPressEv .AltGr => { s with altPressed := true }
  | .keyReleaseEv .Alt => { s with altPressed := false }
  | .keyReleaseEv .AltGr => { s with altPressed := false }
  | _ => s

/-- The grab callback (input_capture.rs): returns the new closed-over state,
the `CaptureControl` messages sent to the coordinator, and whether the OS
event is passed through (`true`, the callback returns `Some(event)`) or
blocked (`false`, it returns `None`). -/
def grabCallback (s : CaptureState) (now : Nat) (e : REvent) :
    CaptureState × List CaptureControl × Bool :=
  if s.shouldStop then (s, [], true)
  else if e = .keyPressEv .KeyQ ∧ s.ctrlPressed = true ∧ s.altPressed = true then
    ({ s with shouldStop := true }, [.exitRequested], true)
  else
    let s1 := trackModifiers s e
    match e with
    | .mouseMove x y =>
        let anchor := s1.lastMousePos.getD (x, y)
        let s2 := { s1 with lastMousePos := some anchor }
        let dx := x - anchor.1
        let dy := y - anchor.2
        if dx ≠ 0 ∨ dy ≠ 0 then
          let ev : InputEventData :=
            { eventType := "mousemove", key := none, keyCode := none,
              x := none, y := none, dx := some dx, dy := some dy }
          (s2, [.inputEvent ev], false)
        else (s2, [], false)
    | .keyPressEv k =>
        ({ s1 with keyPressTimes := recordPress (rkeyName k) now s1.keyPressTimes },
          [.inputEvent (keydownEvent k)], false)
    | .keyReleaseEv k =>
        ({ s1 with keyPressTimes := removePress (rkeyName k) s1.keyPressTimes },
          [.inputEvent (keyupEvent k)], false)
    | .buttonPress b =>
        let ev : InputEventData :=
          { eventType := "mousedown", key := some (buttonName b), keyCode := none,
            x := none, y := none, dx := none, dy := none }
        ({ s1 with keyPressTimes := recordPress (buttonName b) now s1.keyPressTimes },
          [.inputEvent ev], false)
    | .buttonRelease b =>
        let ev : InputEventData :=
          { eventType := "mouseup", key := some (buttonName b), keyCode := none,
            x := none, y := none, dx := none, dy := none }
        ({ s1 with keyPressTimes := removePress (buttonName b) s1.keyPressTimes },
          [.inputEvent ev], false)
    | .wheel dx dy =>
        let ev : InputEventData :=
          { eventType := "wheel", key := none, keyCode := none,
            x := none, y := none, dx := some dx, dy := some dy }
        (s1, [.inputEvent ev], false)

/-- OS pointer semantics for a grabbed event: a blocked event leaves the
cursor where it is; a passed-through move lands the cursor at the reported
position. -/
def osCursorAfter (cursor : Int × Int) (e : REvent) (passThrough : Bool) :
    Int × Int :=
  if passThrough then
    match e with
    | .mouseMove x y => (x, y)
    | _ => cursor
  else cursor

/-- `main.rs` fallback conversion of a captured key name to a wire code,
used only when the event carries no numeric `key_code`. -/
def fallbackKeyCode (keyStr : String) : Nat :=
  match keyStr.toList with
  | ['K', 'e', 'y', c] => c.toNat
  | ['N', 'u', 'm', c] => c.toNat
  | _ =>
      if keyStr = "Return" then 13
      else if keyStr = "Space" then 32
      else if keyStr = "Backspace" then 8
      else if keyStr = "Tab" then 9
      else if keyStr = "Escape" then 27
      else 0

/-- The captured keydown/keyup forwarding arm of the main event loop
(main.rs): the `KeyPress` wire message enqueued on each session's outbound
channel, or `none` when nothing is sent. -/
def forwardKeyEvent (ev : InputEventData) : Option Message :=
  match ev.keyCode with
  | some code =>
      if code ≠ 0 then some (.KeyPress code (ev.eventType == "keydown"))
      else none
  | none =>
      match ev.key with
      | some keyStr =>
          let kc := fallbackKeyCode keyStr
          if kc ≠ 0 then some (.KeyPress kc (ev.eventType == "keydown"))
          else none
      | none => none

/-! ## Network interface enumeration (src/backend/src/discovery.rs
`Discovery::new`, and src/backend/src/main.rs `get_local_ip`) -/

/-- An IPv4 address by its four octets. -/
structure IPv4 where
  o0 : Nat
  o1 : Nat
  o2 : Nat
  o3 : Nat
deriving DecidableEq

/-- One entry of `local_ip_address::list_afinet_netifas()`, already
restricted to the IPv4 entries (both source functions skip IPv6 with
`if let IpAddr::V4`). -/
structure NetInterface where
  name : String
  addr : IPv4
deriving DecidableEq

/-- Substring test on character lists (`str::contains`). -/
def charListContains (needle : List Char) : List Char → Bool
  | [] => needle.isEmpty
  | c :: t => needle.isPrefixOf (c :: t) || charListContains needle t

/-- `name.to_lowercase().contains(sub)` for an ASCII pattern `sub`. -/
def strContainsLower (name sub : String) : Bool :=
  charListContains sub.toList (name.toList.map Char.toLower)

/-- `Ipv4Addr::is_loopback`. -/
def isLoopback (ip : IPv4) : Bool := ip.o0 == 127

/-- The virtual-adapter skip condition of `get_local_ip` (main.rs): known
name substrings, or first octets 198.18 (Windows ICS) or 169.254 (APIPA). -/
def isVirtualAdapter (name : String) (ip : IPv4) : Bool :=
  strContainsLower name "virtualbox" || strContainsLower name "vmware" ||
  strContainsLower name "hyper-v" || strContainsLower name "vethernet" ||
  strContainsLower name "docker" || strContainsLower name "wsl" ||
  (ip.o0 == 198 && ip.o1 == 18) || (ip.o0 == 169 && ip.o1 == 254)

/-- The interface loop of `get_local_ip`: skip loopback and virtual
adapters, return the first 192.168.x.x immediately, otherwise collect
10.x.x.x and 172.16-31.x.x candidates and return the first. -/
def getLocalIpGo : List NetInterface → List IPv4 → Option IPv4
  | [], cands => cands.head?
  | itf :: rest, cands =>
      if isLoopback itf.addr then getLocalIpGo rest cands
      else if isVirtualAdapter itf.name itf.addr then getLocalIpGo rest cands
      else if itf.addr.o0 = 192 ∧ itf.addr.o1 = 168 then some itf.addr
      else if itf.addr.o0 = 10 ∨
          (itf.addr.o0 = 172 ∧ 16 ≤ itf.addr.o1 ∧ itf.addr.o1 ≤ 31) then
        getLocalIpGo rest (cands ++ [itf.addr])
      else getLocalIpGo rest cands

/-- `get_local_ip` (main.rs).  `none` stands for the final fallback to the
OS default route (`local_ip_address::local_ip()`), taken when no interface
qualifies. -/
def get_local_ip (ifs : List NetInterface) : Option IPv4 :=
  getLocalIpGo ifs []

/-- The /24 directed broadcast address of an interface address. -/
def bcastOf (ip : IPv4) : IPv4 := ⟨ip.o0, ip.o1, ip.o2, 255⟩

/-- The broadcast-address computation of `Discovery::new` (discovery.rs):
skip loopback and 169.254 APIPA only — there is no name-based filtering and
no 198.18 check — and add a /24 broadcast for each RFC-1918 interface. -/
def broadcastAddrsCore : List NetInterface → List IPv4
  | [] => []
  | itf :: rest =>
      if isLoopback itf.addr then broadcastAddrsCore rest
      else if itf.addr.o0 = 169 ∧ itf.addr.o1 = 254 then broadcastAddrsCore rest
      else if itf.addr.o0 = 192 ∧ itf.addr.o1 = 168 then
        bcastOf itf.addr :: broadcastAddrsCore rest
      else if itf.addr.o0 = 10 then bcastOf itf.addr :: broadcastAddrsCore rest
      else if itf.addr.o0 = 172 ∧ 16 ≤ itf.addr.o1 ∧ itf.addr.o1 ≤ 31 then
        bcastOf itf.addr :: broadcastAddrsCore rest
      else broadcastAddrsCore rest

/-- `Discovery::new`: the final broadcast list, falling back to the limited
broadcast address when no private network was found. -/
def discoveryBroadcastAddrs (ifs : List NetInterface) : List IPv4 :=
  let core := broadcastAddrsCore ifs
  if core.isEmpty then [⟨255, 255, 255, 255⟩] else core

/-- A local-IP candidate the loop can report: not loopback and not a
virtual adapter. -/
def goodLocalItf (itf : NetInterface) : Prop :=
  isLoopback itf.addr = false ∧ isVirtualAdapter itf.name itf.addr = false

/-! ## The coordinator (src/backend/src/main.rs)

The shared mutable state of `main` — the peer table, the pending-inbound
map, the latest-request slot, the outgoing-request slot, the
active-connection map and the capture flag — forms `CoordState`.  Each
mutex-guarded handler body of the event loop and of the spawned tasks is
one atomic `Event`; `step` returns the new state, the WebSocket messages
broadcast to the UI, and the `ConnectResponse` frames written to held
streams (a held stream is identified by its socket-address key).  Instants
are milliseconds; `Duration::as_secs` is division by 1000. -/

/-- `websocket::DeviceInfo`. -/
structure DeviceInfo where
  id : String
  name : String
  ip : String
  deviceType : String
deriving DecidableEq

/-- `pending_connections`: socket-address key to (resolved device, arrival
instant); the held `TcpStream` is identified by the key. -/
abbrev PendingMap := List (String × Option DeviceInfo × Nat)

/-- The coordinator-scoped mutable state of `main`. -/
structure CoordState where
  devices : List (String × DeviceInfo × Nat)
  pending : PendingMap
  latestRequest : Option DeviceInfo
  outgoing : Option String
  activeConnections : List String
  capturing : Bool
deriving DecidableEq

/-- The coordinator-to-UI WebSocket messages the claims mention (failure
reasons and event payloads are not needed and are omitted). -/
inductive UiMsg where
  | localInfo (d : DeviceInfo)
  | deviceFound (d : DeviceInfo)
  | connectionRequest (d : DeviceInfo)
  | connectionRequestCancelled (deviceId : String)
  | connectionEstablished (deviceId : String)
  | connectionFailed (deviceId : String)
  | disconnected
deriving DecidableEq

/-- A `ConnectResponse` frame written to the held stream of a pending
connection (or to a fresh inbound stream), identified by address key. -/
inductive WireOut where
  | connectResponse (addr : String) (ok : Bool)
deriving DecidableEq

/-- The atomic handler executions of the coordinator. -/
inductive Event where
  | discoveryDatagram (id name ip : String) (now : Nat)
  | inboundHandshake (addr ip : String) (now : Nat)
  | handshakeReadError (addr : String)
  | sweepExpired (now : Nat)
  | wsGetLocalInfo
  | wsStartDiscovery (now : Nat)
  | wsStartCapture
  | wsStopCapture
  | wsRequestConnection (target : String)
  | wsCancelConnection
  | wsAcceptConnection (target : String)
  | wsRejectConnection (target : String)
  | wsDisconnect
  | connectSucceeded (targetId targetIp : String)
  | connectFailed (targetId : String)
  | connectCancelled
  | sessionIoFailed (connKey : String)
  | exitRequested
deriving DecidableEq

/-- `HashMap::insert` on the peer table (replace or add). -/
def upsertDevice (id : String) (d : DeviceInfo) (now : Nat) :
    List (String × DeviceInfo × Nat) → List (String × DeviceInfo × Nat)
  | [] => [(id, d, now)]
  | e :: rest =>
      if e.1 = id then (id, d, now) :: rest else e :: upsertDevice id d now rest

/-- The `StartDiscovery` prune: `devices.retain` keeps an entry exactly when
`now.duration_since(last_seen).as_secs() <= 10`, i.e. `(now - t) / 1000 ≤ 10`
with truncating division. -/
def pruneDevices (now : Nat) (devs : List (String × DeviceInfo × Nat)) :
    List (String × DeviceInfo × Nat) :=
  devs.filter fun e => (now - e.2.2) / 1000 ≤ 10

/-- Resolution of an inbound connection against the peer table by source
IP: `devs.values().find(|(dev, _)| dev.ip == addr.ip())`. -/
def resolveByIp (devs : List (String × DeviceInfo × Nat)) (ip : String) :
    Option DeviceInfo :=
  (devs.find? fun e => e.2.1.ip == ip).map (·.2.1)

/-- The pending entries older than the 30-second watchdog
(`now.duration_since(timestamp).as_secs() > 30`). -/
def pendingExpired (now : Nat) (p : PendingMap) : PendingMap :=
  p.filter fun e => (now - e.2.2) / 1000 > 30

/-- The pending entries the watchdog keeps. -/
def pendingFresh (now : Nat) (p : PendingMap) : PendingMap :=
  p.filter fun e => ¬((now - e.2.2) / 1000 > 30)

/-- Finding a pending connection by resolved device id
(`dev.as_ref().map(|d| &d.id) == Some(&target_device_id)`). -/
def findPendingAddr (p : PendingMap) (targetId : String) : Option String :=
  (p.find? fun e => e.2.1.map (·.id) == some targetId).map (·.1)

/-- One atomic handler: the new state, the UI broadcasts, and the
`ConnectResponse` frames written. -/
def step (localId : String) (s : CoordState) (e : Event) :
    CoordState × List UiMsg × List WireOut :=
  match e with
  | .discoveryDatagram id name ip now =>
      if id = localId then (s, [], [])
      else
        let d : DeviceInfo :=
          { id := id, name := name, ip := ip, deviceType := "DESKTOP" }
        let isNew := (s.devices.find? fun e => e.1 == id).isNone
        ({ s with devices := upsertDevice id d now s.devices },
          if isNew then [.deviceFound d] else [], [])
  | .inboundHandshake addr ip now =>
      match resolveByIp s.devices ip with
      | some d =>
          let expired := pendingExpired now s.pending
          let rest := pendingFresh now s.pending
          let wire := (expired.map fun p => WireOut.connectResponse p.1 false) ++
            (rest.map fun p => WireOut.connectResponse p.1 false)
          ({ s with pending := [(addr, some d, now)], latestRequest := some d },
            [.connectionRequest d], wire)
      | none => (s, [], [.connectResponse addr false])
  | .handshakeReadError addr =>
      match s.pending.find? (fun p => p.1 == addr) with
      | some (_, some d, _) =>
          let latest := if s.latestRequest.map (·.id) = some d.id then none
            else s.latestRequest
          ({ s with pending := s.pending.filter (fun p => p.1 ≠ addr),
                    latestRequest := latest },
            [.connectionRequestCancelled d.id], [])
      | some (_, none, _) =>
          ({ s with pending := s.pending.filter (fun p => p.1 ≠ addr) }, [], [])
      | none => (s, [], [])
  | .sweepExpired now =>
      ({ s with pending := pendingFresh now s.pending }, [],
        (pendingExpired now s.pending).map fun p =>
          WireOut.connectResponse p.1 false)
  | .wsGetLocalInfo =>
      let localDev : DeviceInfo :=
        { id := localId, name := localId, ip := "", deviceType := "DESKTOP" }
      (s, .localInfo localDev ::
        (match s.latestRequest with
          | some d => [.connectionRequest d]
          | none => []), [])
  | .wsStartDiscovery now =>
      let remaining := pruneDevices now s.devices
      ({ s with devices := remaining },
        remaining.map fun e => UiMsg.deviceFound e.2.1, [])
  | .wsStartCapture =>
      if s.capturing then (s, [], []) else ({ s with capturing := true }, [], [])
  | .wsStopCapture =>
      if s.capturing then ({ s with capturing := false }, [], []) else (s, [], [])
  | .wsRequestConnection target =>
      let s1 := { s with outgoing := some target }
      match s1.devices.find? (fun e => e.1 == target) with
      | some _ => (s1, [], [])
      | none => (s1, [.connectionFailed target], [])
  | .wsCancelConnection =>
      ({ s with outgoing := none }, [], [])
  | .wsAcceptConnection target =>
      let s1 := { s with latestRequest := none }
      match findPendingAddr s1.pending target with
      | some addr =>
          ({ s1 with pending := s1.pending.filter (fun p => p.1 ≠ addr),
                     activeConnections := s1.activeConnections ++ [addr] },
            [.connectionEstablished target], [.connectResponse addr true])
      | none => (s1, [], [])
  | .wsRejectConnection target =>
      let s1 := { s with latestRequest := none }
      match findPendingAddr s1.pending target with
      | some addr =>
          ({ s1 with pending := s1.pending.filter (fun p => p.1 ≠ addr) },
            [], [.connectResponse addr false])
      | none => (s1, [], [])
  | .wsDisconnect =>
      ({ s with capturing := false, activeConnections := [], pending := [] },
        [.disconnected], [])
  | .connectSucceeded targetId targetIp =>
      ({ s with outgoing := none,
                activeConnections := s.activeConnections ++ [targetIp ++ ":8080"] },
        [.connectionEstablished targetId], [])
  | .connectFailed targetId =>
      ({ s with outgoing := none }, [.connectionFailed targetId], [])
  | .connectCancelled =>
      ({ s with outgoing := none }, [], [])
  | .sessionIoFailed connKey =>
      ({ s with activeConnections :=
          s.activeConnections.filter (fun k => k ≠ connKey) },
        [.disconnected], [])
  | .exitRequested =>
      ({ s with capturing := false, activeConnections := [], pending := [] },
        [.disconnected], [])

/-- The state at process start. -/
def initState : CoordState :=
  { devices := [], pending := [], latestRequest := none, outgoing := none,
    activeConnections := [], capturing := false }

/-- The state component of one step. -/
def stepState (localId : String) (s : CoordState) (e : Event) : CoordState :=
  (step localId s e).1

/-- The state after a sequence of handler executions from start. -/
def runState (localId : String) (events : List Event) : CoordState :=
  events.foldl (stepState localId) initState

/-- The states the coordinator can reach. -/
inductive Reachable (localId : String) : CoordState → Prop
  | init : Reachable localId initState
  | next (s : CoordState) (e : Event) : Reachable localId s →
      Reachable localId (stepState localId s e)

/-- The local device id used by the concrete scenario states. -/
def cLocal : String := "device-local"

/-- First remote device of the concrete scenarios. -/
def cDevOne : DeviceInfo :=
  { id := "device-one", name := "One", ip := "10.0.0.2",
    deviceType := "DESKTOP" }

/-- Second remote device of the concrete scenarios. -/
def cDevTwo : DeviceInfo :=
  { id := "device-two", name := "Two", ip := "10.0.0.3",
    deviceType := "DESKTOP" }

/-- Two devices get discovered, then device-one opens an inbound handshake
that becomes pending. -/
def cTrace3 : List Event :=
  [.discoveryDatagram "device-one" "One" "10.0.0.2" 0,
   .discoveryDatagram "device-two" "Two" "10.0.0.3" 0,
   .inboundHandshake "10.0.0.2:50000" "10.0.0.2" 1000]

/-- Devices discovered; the UI requests an outgoing connection to
device-two (still unresolved), then device-one's inbound handshake arrives
and the UI accepts it. -/
def cTraceC4 : List Event :=
  [.discoveryDatagram "device-one" "One" "10.0.0.2" 0,
   .discoveryDatagram "device-two" "Two" "10.0.0.3" 0,
   .wsRequestConnection "device-two",
   .inboundHandshake "10.0.0.2:50000" "10.0.0.2" 1000,
   .wsAcceptConnection "device-one"]

/-- A session is established with device-one, capture starts, then the
session's I/O fails. -/
def cTraceC5 : List Event :=
  [.discoveryDatagram "device-one" "One" "10.0.0.2" 0,
   .inboundHandshake "10.0.0.2:50000" "10.0.0.2" 1000,
   .wsAcceptConnection "device-one",
   .wsStartCapture,
   .sessionIoFailed "10.0.0.2:50000"]

/-! ## The peer table under discovery datagrams (claim C6) -/

/-- A received discovery announce: the sender's claimed id and name, the
datagram's source IP, and the processing instant (ms). -/
structure Datagram where
  id : String
  name : String
  ip : String
  time : Nat
deriving DecidableEq

/-- The coordinator events of a datagram sequence. -/
def datagramEvents (ds : List Datagram) : List Event :=
  ds.map fun d => .discoveryDatagram d.id d.name d.ip d.time

/-- The peer-table effect of one discovery datagram: own announces are
skipped, everything else is inserted or refreshed. -/
def tableStep (localId : String) (t : List (String × DeviceInfo × Nat))
    (d : Datagram) : List (String × DeviceInfo × Nat) :=
  if d.id = localId then t
  else upsertDevice d.id ⟨d.id, d.name, d.ip, "DESKTOP"⟩ d.time t

/-- The instant of the last datagram carrying a given id. -/
def lastSeenTime : List Datagram → String → Option Nat
  | [], _ => none
  | d :: ds, i =>
      match lastSeenTime ds i with
      | some t => some t
      | none => if d.id = i then some d.time else none

/-- An id was seen and its last sighting is inside the retention window at
`now`: truncated whole seconds at most 10. -/
def freshAt (ds : List Datagram) (now : Nat) (i : String) : Bool :=
  match lastSeenTime ds i with
  | some t => (now - t) / 1000 ≤ 10
  | none => false

/-- The number of distinct non-local ids whose last sighting is within the
retention window. -/
def distinctFreshCount (ds : List Datagram) (localId : String)
    (now : Nat) : Nat :=
  (((ds.map Datagram.id).dedup).filter fun i =>
    i != localId && freshAt ds now i).length

/-- First-match association lookup of an entry's instant. -/
def lookupTime : List (String × DeviceInfo × Nat) → String → Option Nat
  | [], _ => none
  | e :: t, i => if e.1 = i then some e.2.2 else lookupTime t i

/-- The later sighting wins; a fallback applies when there is none. -/
def overrideTime (o : Option Nat) (fallback : Option Nat) : Option Nat :=
  match o with
  | some t => some t
  | none => fallback

/-- The last sighting of an id, masked for the local id (own announces are
never inserted). -/
def lastSeenNonLocal (localId : String) (ds : List Datagram)
    (i : String) : Option Nat :=
  if i = localId then none else lastSeenTime ds i

/-! ## Codec lemmas -/

theorem readU32le_u32leBytes (n : Nat) (rest : Bytes) :
    readU32le (u32leBytes n ++ rest) = some (n % 4294967296, rest) := by
  simp only [u32leBytes, List.cons_append, List.nil_append, readU32le]
  have h : n % 256 + 256 * (n / 256 % 256) + 65536 * (n / 65536 % 256) +
      16777216 * (n / 16777216 % 256) = n % 4294967296 := by omega
  rw [h]

theorem readU64le_u64leBytes (n : Nat) (rest : Bytes) :
    readU64le (u64leBytes n ++ rest) = some (n % 18446744073709551616, rest) := by
  simp only [u64leBytes, List.cons_append, List.nil_append, readU64le]
  have h : n % 256 + 256 * (n / 256 % 256) + 65536 * (n / 65536 % 256) +
      16777216 * (n / 16777216 % 256) + 4294967296 * (n / 4294967296 % 256) +
      1099511627776 * (n / 1099511627776 % 256) +
      281474976710656 * (n / 281474976710656 % 256) +
      72057594037927936 * (n / 72057594037927936 % 256) =
      n % 18446744073709551616 := by omega
  rw [h]

theorem readU16le_u16leBytes (n : Nat) (rest : Bytes) :
    readU16le (u16leBytes n ++ rest) = some (n % 65536, rest) := by
  simp only [u16leBytes, List.cons_append, List.nil_append, readU16le]
  have h : n % 256 + 256 * (n / 256 % 256) = n % 65536 := by omega
  rw [h]

theorem readBeU32_beU32Bytes (n : Nat) (rest : Bytes) :
    readBeU32 (beU32Bytes n ++ rest) = some (n % 4294967296, rest) := by
  simp only [beU32Bytes, List.cons_append, List.nil_append, readBeU32]
  have h : 16777216 * (n / 16777216 % 256) + 65536 * (n / 65536 % 256) +
      256 * (n / 256 % 256) + n % 256 = n % 4294967296 := by omega
  rw [h]

theorem readBool_boolByte (b : Bool) (rest : Bytes) :
    readBool (boolByte b :: rest) = some (b, rest) := by
  cases b <;> simp [readBool, boolByte]

theorem readI32le_i32leBytes (x : Int) (h1 : -2147483648 ≤ x)
    (h2 : x < 2147483648) (rest : Bytes) :
    readI32le (i32leBytes x ++ rest) = some (x, rest) := by
  simp only [i32leBytes, readI32le, readU32le_u32leBytes, Option.map_some']
  have hm : (x % 4294967296).toNat % 4294967296 = (x % 4294967296).toNat := by
    omega
  rw [hm]
  have h : (if (x % 4294967296).toNat < 2147483648
      then ((x % 4294967296).toNat : Int)
      else ((x % 4294967296).toNat : Int) - 4294967296) = x := by
    split <;> omega
  rw [h]

theorem readBytes_exact (l rest : Bytes) :
    readBytes l.length (l ++ rest) = some (l, rest) := by
  simp [readBytes, List.take_left, List.drop_left]

theorem readBytes_all (l : Bytes) : readBytes l.length l = some (l, []) := by
  simp [readBytes]

/-- Deserialization is a left inverse of serialization on well-formed
messages, leaving trailing bytes untouched. -/
theorem parseMessage_serializeMessage (m : Message) (hwf : m.Wf) (rest : Bytes) :
    parseMessage (serializeMessage m ++ rest) = some (m, rest) := by
  cases m with
  | Discovery id name port =>
      obtain ⟨h1, h2, h3⟩ := hwf
      simp [serializeMessage, parseMessage, List.append_assoc,
        readU32le_u32leBytes, readU64le_u64leBytes, readBytes_exact,
        readU16le_u16leBytes, Nat.mod_eq_of_lt h1, Nat.mod_eq_of_lt h2,
        Nat.mod_eq_of_lt h3]
  | MouseMove x y =>
      obtain ⟨h1, h2, h3, h4⟩ := hwf
      simp [serializeMessage, parseMessage, List.append_assoc,
        readU32le_u32leBytes, readI32le_i32leBytes x h1 h2,
        readI32le_i32leBytes y h3 h4]
  | MouseClick button state =>
      simp [serializeMessage, parseMessage, List.append_assoc,
        readU32le_u32leBytes, readByte, readBool_boolByte,
        Nat.mod_eq_of_lt (show button < 256 from hwf)]
  | KeyPress key state =>
      simp [serializeMessage, parseMessage, List.append_assoc,
        readU32le_u32leBytes, readBool_boolByte,
        Nat.mod_eq_of_lt (show key < 4294967296 from hwf)]
  | ConnectRequest =>
      simp [serializeMessage, parseMessage, readU32le_u32leBytes]
  | ConnectResponse success =>
      simp [serializeMessage, parseMessage, List.append_assoc,
        readU32le_u32leBytes, readBool_boolByte]
  | Disconnect =>
      simp [serializeMessage, parseMessage, readU32le_u32leBytes]

/-- Frame-level round trip: receiving the bytes produced by `send_tcp`
recovers the original message. -/
theorem recv_tcp_send_tcp (m : Message) (hwf : m.Wf)
    (hlen : (serializeMessage m).length < 4294967296) :
    recv_tcp (send_tcp m) = some m := by
  have hparse : parseMessage (serializeMessage m) = some (m, []) := by
    have h := parseMessage_serializeMessage m hwf []
    rwa [List.append_nil] at h
  simp [recv_tcp, send_tcp, readBeU32_beU32Bytes, Nat.mod_eq_of_lt hlen,
    readBytes_all, deserializeMessage, hparse]

/-- Claim C1: for every message of the wire variant set, decoding an encoded
frame yields the message again, and `send_tcp` emits a single contiguous
buffer whose first four bytes are the big-endian length of the serialized
payload that follows. -/
theorem C1_codec_roundtrip (m : Message) (hwf : m.Wf)
    (hlen : (serializeMessage m).length < 4294967296) :
    recv_tcp (send_tcp m) = some m ∧
    (send_tcp m).take 4 = beU32Bytes (serializeMessage m).length ∧
    (send_tcp m).drop 4 = serializeMessage m := by
  refine ⟨recv_tcp_send_tcp m hwf hlen, ?_, ?_⟩
  · simp only [send_tcp, Nat.mod_eq_of_lt hlen]
    exact List.take_left' (by simp [beU32Bytes])
  · simp only [send_tcp, Nat.mod_eq_of_lt hlen]
    exact List.drop_left' (by simp [beU32Bytes])

/-- Witness for C1: the round trip at the concrete message `MouseMove 5 (-7)`. -/
theorem C1_codec_roundtrip_witness :
    recv_tcp (send_tcp (.MouseMove 5 (-7))) = some (.MouseMove 5 (-7)) ∧
    (send_tcp (.MouseMove 5 (-7))).take 4 =
      beU32Bytes (serializeMessage (.MouseMove 5 (-7))).length ∧
    (send_tcp (.MouseMove 5 (-7))).drop 4 = serializeMessage (.MouseMove 5 (-7)) :=
  C1_codec_roundtrip (.MouseMove 5 (-7)) (by decide) (by decide)

theorem serializeMessage_discovery_length (id name : Bytes) (port : Nat) :
    (serializeMessage (.Discovery id name port)).length =
      22 + id.length + name.length := by
  simp only [serializeMessage, u32leBytes, u64leBytes, u16leBytes,
    List.length_append, List.length_cons, List.length_nil]
  omega

theorem discoveryOversized_wf : discoveryOversized.Wf :=
  ⟨by rw [List.length_replicate]; norm_num, by norm_num, by norm_num⟩

theorem serialize_discoveryOversized_length :
    (serializeMessage discoveryOversized).length = 65537 := by
  rw [discoveryOversized, serializeMessage_discovery_length,
    List.length_replicate]
  norm_num

/-- Counterexample to claim C2: the frame encoding `discoveryOversized`
declares a length of 65537 bytes, which exceeds 64 KiB, yet `recv_tcp` does
not reject it: it decodes the frame successfully. -/
theorem C2_counterexample :
    declaredLen (send_tcp discoveryOversized) = some 65537 ∧
    65536 < 65537 ∧
    recv_tcp (send_tcp discoveryOversized) = some discoveryOversized := by
  refine ⟨?_, by norm_num, recv_tcp_send_tcp discoveryOversized discoveryOversized_wf
    (by rw [serialize_discoveryOversized_length]; norm_num)⟩
  simp [declaredLen, send_tcp, readBeU32_beU32Bytes,
    serialize_discoveryOversized_length]

/-- Claim C2 amended: the decoder enforces no 64 KiB bound at all.  For every
payload and matching declared length — including lengths far above 64 KiB —
`recv_tcp` reads exactly the declared number of bytes and hands them to the
deserializer, never rejecting on size. -/
theorem C2_amended_no_length_check (payload : Bytes)
    (h : payload.length < 4294967296) :
    recv_tcp (beU32Bytes payload.length ++ payload) = deserializeMessage payload := by
  simp [recv_tcp, readBeU32_beU32Bytes, Nat.mod_eq_of_lt h, readBytes_all]

/-- Witness for the amended C2 at a 70000-byte payload (declared length
70000 > 65536). -/
theorem C2_amended_no_length_check_witness :
    recv_tcp (beU32Bytes (List.replicate 70000 0).length ++ List.replicate 70000 0) =
      deserializeMessage (List.replicate 70000 0) :=
  C2_amended_no_length_check (List.replicate 70000 0)
    (by rw [List.length_replicate]; norm_num)

/-! ## Capture and replay theorems -/

/-- Claim C7: while capture is active (`should_stop` unset), every
pointer-move event is blocked — never passed to the local OS — and the
emitted delta equals the reported position minus the fixed anchor; the
anchor is left unchanged, so the blocked cursor stays pinned at it. -/
theorem C7_mouse_trap (s : CaptureState) (now : Nat) (x y ax ay : Int)
    (hact : s.shouldStop = false) (hanchor : s.lastMousePos = some (ax, ay)) :
    (grabCallback s now (.mouseMove x y)).2.2 = false ∧
    (grabCallback s now (.mouseMove x y)).2.1 =
      (if x - ax ≠ 0 ∨ y - ay ≠ 0 then
        [CaptureControl.inputEvent
          { eventType := "mousemove", key := none, keyCode := none,
            x := none, y := none, dx := some (x - ax), dy := some (y - ay) }]
        else []) ∧
    (grabCallback s now (.mouseMove x y)).1.lastMousePos = some (ax, ay) ∧
    osCursorAfter (ax, ay) (.mouseMove x y)
      (grabCallback s now (.mouseMove x y)).2.2 = (ax, ay) := by
  by_cases hc : x - ax ≠ 0 ∨ y - ay ≠ 0 <;>
    simp [grabCallback, trackModifiers, osCursorAfter, hact, hanchor, hc]

/-- Witness for C7 at a concrete state and move event. -/
theorem C7_mouse_trap_witness :
    (grabCallback ⟨false, false, false, some (100, 200), []⟩ 0
      (.mouseMove 103 199)).2.2 = false ∧
    (grabCallback ⟨false, false, false, some (100, 200), []⟩ 0
      (.mouseMove 103 199)).2.1 =
      (if (103 : Int) - 100 ≠ 0 ∨ (199 : Int) - 200 ≠ 0 then
        [CaptureControl.inputEvent
          { eventType := "mousemove", key := none, keyCode := none,
            x := none, y := none, dx := some ((103 : Int) - 100),
            dy := some ((199 : Int) - 200) }]
        else []) ∧
    (grabCallback ⟨false, false, false, some (100, 200), []⟩ 0
      (.mouseMove 103 199)).1.lastMousePos = some (100, 200) ∧
    osCursorAfter (100, 200) (.mouseMove 103 199)
      (grabCallback ⟨false, false, false, some (100, 200), []⟩ 0
        (.mouseMove 103 199)).2.2 = (100, 200) :=
  C7_mouse_trap ⟨false, false, false, some (100, 200), []⟩ 0 103 199 100 200
    rfl rfl

/-- Counterexample to claim C8: the left-bracket key of the common
punctuation group is captured as wire code 91, but replay maps code 91 to
the MetaLeft modifier, not to the bracket key (and 92, the backslash, to
MetaRight): the punctuation coverage fails at these codes. -/
theorem C8_counterexample :
    rdev_key_to_code .LeftBracket = 91 ∧
    map_key_code 91 = some RKey.MetaLeft ∧
    RKey.MetaLeft ≠ RKey.LeftBracket ∧
    key_press 91 true = some (.pressKey RKey.MetaLeft) ∧
    rdev_key_to_code .BackSlash = 92 ∧
    map_key_code 92 = some RKey.MetaRight := by
  refine ⟨by decide, by decide, by decide, by decide, by decide, by decide⟩

/-- Claim C8 amended: the replay mapping covers A–Z (65–90) with each
lowercase code 97–122 mapped to the same physical key as its uppercase
counterpart, digits 48–57, Return (13, with 10 aliased), Escape, Space,
Backspace and Tab, the punctuation group except that codes 91 and 92 are
taken by the MetaLeft/MetaRight modifiers, and the modifier group with
left/right disambiguation; every unmapped code makes `key_press` a no-op
that injects nothing and never raises. -/
theorem C8_amended_key_mapping :
    ((∀ c, c < 91 → 65 ≤ c →
        (map_key_code c).isSome = true ∧ map_key_code (c + 32) = map_key_code c) ∧
      (∀ c, c < 58 → 48 ≤ c → (map_key_code c).isSome = true) ∧
      map_key_code 13 = some .Return ∧ map_key_code 10 = some .Return ∧
      map_key_code 27 = some .Escape ∧ map_key_code 32 = some .Space ∧
      map_key_code 8 = some .Backspace ∧ map_key_code 9 = some .Tab ∧
      (∀ c ∈ punctuationCodes, (map_key_code c).isSome = true) ∧
      map_key_code 91 = some .MetaLeft ∧ map_key_code 92 = some .MetaRight ∧
      map_key_code 16 = some .ShiftLeft ∧ map_key_code 160 = some .ShiftLeft ∧
      map_key_code 161 = some .ShiftRight ∧
      map_key_code 17 = some .ControlLeft ∧
      map_key_code 162 = some .ControlLeft ∧
      map_key_code 163 = some .ControlRight ∧
      map_key_code 18 = some .Alt ∧ map_key_code 164 = some .Alt ∧
      map_key_code 165 = some .AltGr) ∧
    (∀ c st, map_key_code c = none → key_press c st = none) :=
  ⟨by decide, fun c st h => by simp [key_press, h]⟩

/-- Claim C10: a captured keydown or keyup whose key maps to wire code 0
under `rdev_key_to_code` (and whose fallback name conversion also yields 0)
is never forwarded: no `KeyPress` message is enqueued for it. -/
theorem C10_zero_keycode_not_sent (k : RKey) (down : Bool)
    (hcode : rdev_key_to_code k = 0)
    (_hfallback : fallbackKeyCode (rkeyName k) = 0) :
    forwardKeyEvent (if down then keydownEvent k else keyupEvent k) = none := by
  cases down <;> simp [forwardKeyEvent, keydownEvent, keyupEvent, hcode]

/-- Witness for C10: an rdev key outside the capture mapping, with the
Debug name F1, is not forwarded on keydown. -/
theorem C10_zero_keycode_not_sent_witness :
    forwardKeyEvent
      (if true then keydownEvent (.other "F1") else keyupEvent (.other "F1")) =
      none :=
  C10_zero_keycode_not_sent (.other "F1") true (by decide) (by decide)

/-! ## Interface-filtering theorems -/

/-- Any address `get_local_ip` reports comes from an interface of the input
list that passed the loopback and virtual-adapter skips. -/
theorem getLocalIpGo_mem (ifs : List NetInterface) :
    ∀ (cands : List IPv4) (ip : IPv4), getLocalIpGo ifs cands = some ip →
      ip ∈ cands ∨ ∃ itf ∈ ifs, itf.addr = ip ∧ goodLocalItf itf := by
  induction ifs with
  | nil =>
      intro cands ip h
      cases cands with
      | nil => simp [getLocalIpGo] at h
      | cons c cs =>
          simp only [getLocalIpGo, List.head?] at h
          cases h
          exact Or.inl (List.mem_cons_self _ _)
  | cons itf rest ih =>
      intro cands ip h
      rw [getLocalIpGo] at h
      split_ifs at h with h1 h2 h3 h4
      · rcases ih cands ip h with hc | ⟨j, hj, hja, hjg⟩
        · exact Or.inl hc
        · exact Or.inr ⟨j, List.mem_cons_of_mem _ hj, hja, hjg⟩
      · rcases ih cands ip h with hc | ⟨j, hj, hja, hjg⟩
        · exact Or.inl hc
        · exact Or.inr ⟨j, List.mem_cons_of_mem _ hj, hja, hjg⟩
      · cases h
        exact Or.inr ⟨itf, List.mem_cons_self _ _, rfl,
          by simpa using h1, by simpa using h2⟩
      · rcases ih (cands ++ [itf.addr]) ip h with hc | ⟨j, hj, hja, hjg⟩
        · rcases List.mem_append.1 hc with hcl | hcr
          · exact Or.inl hcl
          · have : ip = itf.addr := by simpa using hcr
            exact Or.inr ⟨itf, List.mem_cons_self _ _, this.symm,
              by simpa using h1, by simpa using h2⟩
        · exact Or.inr ⟨j, List.mem_cons_of_mem _ hj, hja, hjg⟩
      · rcases ih cands ip h with hc | ⟨j, hj, hja, hjg⟩
        · exact Or.inl hc
        · exact Or.inr ⟨j, List.mem_cons_of_mem _ hj, hja, hjg⟩

/-- Every address in the broadcast set comes from a non-loopback, non-APIPA
interface with an RFC-1918 address — and from nothing stricter: no name
check is involved. -/
theorem broadcastAddrsCore_mem :
    ∀ (ifs : List NetInterface) (b : IPv4), b ∈ broadcastAddrsCore ifs →
      ∃ itf ∈ ifs, b = bcastOf itf.addr ∧ isLoopback itf.addr = false ∧
        ¬(itf.addr.o0 = 169 ∧ itf.addr.o1 = 254) ∧
        ((itf.addr.o0 = 192 ∧ itf.addr.o1 = 168) ∨ itf.addr.o0 = 10 ∨
          (itf.addr.o0 = 172 ∧ 16 ≤ itf.addr.o1 ∧ itf.addr.o1 ≤ 31)) := by
  intro ifs
  induction ifs with
  | nil => intro b hb; simp [broadcastAddrsCore] at hb
  | cons itf rest ih =>
      intro b hb
      rw [broadcastAddrsCore] at hb
      split_ifs at hb with h1 h2 h3 h4 h5
      · obtain ⟨j, hj, hrest⟩ := ih b hb
        exact ⟨j, List.mem_cons_of_mem _ hj, hrest⟩
      · obtain ⟨j, hj, hrest⟩ := ih b hb
        exact ⟨j, List.mem_cons_of_mem _ hj, hrest⟩
      · rcases List.mem_cons.1 hb with hbe | hbr
        · exact ⟨itf, List.mem_cons_self _ _, hbe, by simpa using h1, h2,
            Or.inl h3⟩
        · obtain ⟨j, hj, hrest⟩ := ih b hbr
          exact ⟨j, List.mem_cons_of_mem _ hj, hrest⟩
      · rcases List.mem_cons.1 hb with hbe | hbr
        · exact ⟨itf, List.mem_cons_self _ _, hbe, by simpa using h1, h2,
            Or.inr (Or.inl h4)⟩
        · obtain ⟨j, hj, hrest⟩ := ih b hbr
          exact ⟨j, List.mem_cons_of_mem _ hj, hrest⟩
      · rcases List.mem_cons.1 hb with hbe | hbr
        · exact ⟨itf, List.mem_cons_self _ _, hbe, by simpa using h1, h2,
            Or.inr (Or.inr h5)⟩
        · obtain ⟨j, hj, hrest⟩ := ih b hbr
          exact ⟨j, List.mem_cons_of_mem _ hj, hrest⟩
      · obtain ⟨j, hj, hrest⟩ := ih b hb
        exact ⟨j, List.mem_cons_of_mem _ hj, hrest⟩

/-- Counterexample to claim C9: an interface named vEthernet (WSL) with the
private address 172.26.0.1 is a virtual adapter by the claim's own
definition, yet the discovery broadcast computation includes its /24
broadcast address — only local-IP reporting excludes it. -/
theorem C9_counterexample :
    isVirtualAdapter "vEthernet (WSL)" ⟨172, 26, 0, 1⟩ = true ∧
    discoveryBroadcastAddrs [⟨"vEthernet (WSL)", ⟨172, 26, 0, 1⟩⟩] =
      [⟨172, 26, 0, 255⟩] ∧
    get_local_ip [⟨"vEthernet (WSL)", ⟨172, 26, 0, 1⟩⟩] = none :=
  ⟨by decide, by decide, by decide⟩

/-- Claim C9 amended: the virtual-adapter exclusions (name substrings,
198.18, 169.254) govern local-IP reporting only.  The broadcast-address
computation excludes just loopback and 169.254 interfaces plus anything
outside the RFC-1918 ranges (which covers 198.18); a virtual-named
interface with a private address still contributes a broadcast address. -/
theorem C9_amended_interface_filtering (ifs : List NetInterface) :
    (∀ ip, get_local_ip ifs = some ip →
      ∃ itf ∈ ifs, itf.addr = ip ∧ goodLocalItf itf) ∧
    (∀ b ∈ broadcastAddrsCore ifs,
      ∃ itf ∈ ifs, b = bcastOf itf.addr ∧ isLoopback itf.addr = false ∧
        ¬(itf.addr.o0 = 169 ∧ itf.addr.o1 = 254) ∧
        ((itf.addr.o0 = 192 ∧ itf.addr.o1 = 168) ∨ itf.addr.o0 = 10 ∨
          (itf.addr.o0 = 172 ∧ 16 ≤ itf.addr.o1 ∧ itf.addr.o1 ≤ 31))) := by
  constructor
  · intro ip h
    rcases getLocalIpGo_mem ifs [] ip h with hc | hgood
    · simp at hc
    · exact hgood
  · exact broadcastAddrsCore_mem ifs

/-- Witness for the amended C9: on a single real interface, the reported
local IP is that interface's address and it passed both skips. -/
theorem C9_amended_interface_filtering_witness :
    ∃ itf ∈ [NetInterface.mk "eth0" ⟨192, 168, 1, 5⟩],
      itf.addr = ⟨192, 168, 1, 5⟩ ∧ goodLocalItf itf :=
  (C9_amended_interface_filtering [⟨"eth0", ⟨192, 168, 1, 5⟩⟩]).1
    ⟨192, 168, 1, 5⟩ (by decide)

/-! ## Coordinator theorems -/

theorem length_filter_le_one {α : Type} (l : List α) (f : α → Bool)
    (h : l.length ≤ 1) : (l.filter f).length ≤ 1 :=
  le_trans (List.length_filter_le f l) h

/-- Counterexample to claim C3: when device-two's handshake supersedes
device-one's pending request, the old stream is sent
`ConnectResponse{ok=false}` and the pending slot now holds only the new
request, but the UI receives only `connectionRequest` for device-two — no
`connectionRequestCancelled` naming device-one (or anyone) is delivered. -/
theorem C3_counterexample :
    (step cLocal (runState cLocal cTrace3)
      (.inboundHandshake "10.0.0.3:50001" "10.0.0.3" 2000)).2.2 =
      [.connectResponse "10.0.0.2:50000" false] ∧
    (step cLocal (runState cLocal cTrace3)
      (.inboundHandshake "10.0.0.3:50001" "10.0.0.3" 2000)).1.pending =
      [("10.0.0.3:50001", some cDevTwo, 2000)] ∧
    (∀ id, UiMsg.connectionRequestCancelled id ∉
      (step cLocal (runState cLocal cTrace3)
        (.inboundHandshake "10.0.0.3:50001" "10.0.0.3" 2000)).2.1) := by
  refine ⟨by decide, by decide, ?_⟩
  intro id h
  have hui : (step cLocal (runState cLocal cTrace3)
      (.inboundHandshake "10.0.0.3:50001" "10.0.0.3" 2000)).2.1 =
      [.connectionRequest cDevTwo] := by decide
  rw [hui] at h
  simp at h

/-- Claim C3 amended: a second inbound handshake supersedes any earlier
pending request — every previously pending stream is sent
`ConnectResponse{ok=false}` and discarded, and the new request alone
becomes pending — but no `connectionRequestCancelled` is delivered to the
UI; the UI receives only the `connectionRequest` for the new device. -/
theorem C3_amended_supersede (localId : String) (s : CoordState)
    (addr ip : String) (now : Nat) (d : DeviceInfo)
    (hres : resolveByIp s.devices ip = some d) :
    (∀ p ∈ s.pending, WireOut.connectResponse p.1 false ∈
      (step localId s (.inboundHandshake addr ip now)).2.2) ∧
    (step localId s (.inboundHandshake addr ip now)).1.pending =
      [(addr, some d, now)] ∧
    (step localId s (.inboundHandshake addr ip now)).2.1 =
      [.connectionRequest d] ∧
    (∀ id, UiMsg.connectionRequestCancelled id ∉
      (step localId s (.inboundHandshake addr ip now)).2.1) := by
  refine ⟨?_, ?_, ?_, ?_⟩
  · intro p hp
    simp only [step, hres]
    by_cases hex : (now - p.2.2) / 1000 > 30
    · exact List.mem_append_left _
        (List.mem_map_of_mem _
          (by simp only [pendingExpired, List.mem_filter]; exact ⟨hp, by simpa using hex⟩))
    · exact List.mem_append_right _
        (List.mem_map_of_mem _
          (by simp only [pendingFresh, List.mem_filter]; exact ⟨hp, by simpa using hex⟩))
  · simp [step, hres]
  · simp [step, hres]
  · intro id h
    simp only [step, hres] at h
    simp at h

/-- Witness for the amended C3: in the concrete two-device scenario the
pending slot afterwards holds exactly the new request. -/
theorem C3_amended_supersede_witness :
    (step cLocal (runState cLocal cTrace3)
      (.inboundHandshake "10.0.0.3:50001" "10.0.0.3" 2000)).1.pending =
      [("10.0.0.3:50001", some cDevTwo, 2000)] :=
  (C3_amended_supersede cLocal (runState cLocal cTrace3) "10.0.0.3:50001"
    "10.0.0.3" 2000 cDevTwo (by decide)).2.1

/-- Counterexample to claim C4: after requesting an outgoing connection to
device-two and then accepting an inbound request from device-one, a session
is present while the outgoing-request record still exists — a session does
not exclude pending records. -/
theorem C4_counterexample :
    (runState cLocal cTraceC4).activeConnections = ["10.0.0.2:50000"] ∧
    (runState cLocal cTraceC4).outgoing = some "device-two" :=
  ⟨by decide, by decide⟩

/-- Claim C4 amended: in every reachable coordinator state at most one
inbound-pending record and at most one outgoing-request record exist (the
pending map never holds two entries and the outgoing slot is a single
option); a session's presence does not imply the absence of pending
records. -/
theorem C4_amended_single_slots (localId : String) (s : CoordState)
    (h : Reachable localId s) :
    s.pending.length ≤ 1 ∧ s.outgoing.toList.length ≤ 1 := by
  induction h with
  | init => exact ⟨by simp [initState], by simp [initState]⟩
  | next s e _hprev ih =>
      obtain ⟨hp, _⟩ := ih
      refine ⟨?_, ?_⟩
      · cases e with
        | discoveryDatagram id name ip now =>
            by_cases hid : id = localId <;>
              simpa [stepState, step, hid] using hp
        | inboundHandshake addr ip now =>
            rcases hres : resolveByIp s.devices ip with _ | d <;>
              simp [stepState, step, hres]
            exact hp
        | handshakeReadError addr =>
            rcases hf : s.pending.find? (fun p => p.1 == addr) with _ | ⟨a, od, t⟩
            · simpa [stepState, step, hf] using hp
            · cases od <;> simp [stepState, step, hf] <;>
                exact length_filter_le_one _ _ hp
        | sweepExpired now =>
            simp [stepState, step, pendingFresh]
            exact length_filter_le_one _ _ hp
        | wsGetLocalInfo => simpa [stepState, step] using hp
        | wsStartDiscovery now => simpa [stepState, step] using hp
        | wsStartCapture =>
            by_cases hc : s.capturing <;> simpa [stepState, step, hc] using hp
        | wsStopCapture =>
            by_cases hc : s.capturing <;> simpa [stepState, step, hc] using hp
        | wsRequestConnection target =>
            rcases hf : s.devices.find? (fun e => e.1 == target) with _ | d <;>
              simpa [stepState, step, hf] using hp
        | wsCancelConnection => simpa [stepState, step] using hp
        | wsAcceptConnection target =>
            rcases hf : findPendingAddr s.pending target with _ | a
            · simpa [stepState, step, hf] using hp
            · simp [stepState, step, hf]
              exact length_filter_le_one _ _ hp
        | wsRejectConnection target =>
            rcases hf : findPendingAddr s.pending target with _ | a
            · simpa [stepState, step, hf] using hp
            · simp [stepState, step, hf]
              exact length_filter_le_one _ _ hp
        | wsDisconnect => simp [stepState, step]
        | connectSucceeded targetId targetIp => simpa [stepState, step] using hp
        | connectFailed targetId => simpa [stepState, step] using hp
        | connectCancelled => simpa [stepState, step] using hp
        | sessionIoFailed connKey => simpa [stepState, step] using hp
        | exitRequested => simp [stepState, step]
      · cases (stepState localId s e).outgoing <;> simp

/-- Witness for the amended C4: the invariant at the state reached by one
step from start. -/
theorem C4_amended_single_slots_witness :
    (stepState cLocal initState .wsStartCapture).pending.length ≤ 1 ∧
    (stepState cLocal initState .wsStartCapture).outgoing.toList.length ≤ 1 :=
  C4_amended_single_slots cLocal _
    (Reachable.next initState .wsStartCapture Reachable.init)

/-- Counterexample to claim C5: starting capture succeeds in the initial
state, where no session exists; and after a session teardown caused by an
I/O failure, capture is still active. -/
theorem C5_counterexample :
    (runState cLocal [Event.wsStartCapture]).capturing = true ∧
    (runState cLocal [Event.wsStartCapture]).activeConnections = [] ∧
    (runState cLocal cTraceC5).activeConnections = [] ∧
    (runState cLocal cTraceC5).capturing = true :=
  ⟨by decide, by decide, by decide, by decide⟩

/-- Claim C5 amended: starting capture succeeds whenever capture is not
already active, with no Connected-state guard; capture is forced off by
UI-initiated disconnect and by the capture escape hatch, but not by an
I/O-failure teardown. -/
theorem C5_amended_capture_lifecycle (localId : String) (s : CoordState) :
    (s.capturing = false →
      (stepState localId s .wsStartCapture).capturing = true) ∧
    (stepState localId s .wsDisconnect).capturing = false ∧
    (stepState localId s .exitRequested).capturing = false :=
  ⟨fun h => by simp [stepState, step, h], by simp [stepState, step],
    by simp [stepState, step]⟩

/-- Witness for the amended C5: capture starts from the initial (idle)
state. -/
theorem C5_amended_capture_lifecycle_witness :
    (stepState cLocal initState .wsStartCapture).capturing = true :=
  (C5_amended_capture_lifecycle cLocal initState).1 (by decide)

/-! ## Peer-table theorems (claim C6) -/

theorem lookupTime_upsertDevice (id : String) (d : DeviceInfo) (now : Nat)
    (t : List (String × DeviceInfo × Nat)) (i : String) :
    lookupTime (upsertDevice id d now t) i =
      if i = id then some now else lookupTime t i := by
  induction t with
  | nil =>
      simp only [upsertDevice, lookupTime]
      by_cases h : i = id
      · simp [h]
      · simp [h, Ne.symm h]
  | cons e t ih =>
      simp only [upsertDevice]
      by_cases he : e.1 = id
      · simp only [if_pos he, lookupTime]
        by_cases h : i = id
        · simp [h]
        · simp [lookupTime, h, Ne.symm h, he]
      · simp only [if_neg he, lookupTime, ih]
        by_cases hei : e.1 = i
        · have hni : ¬i = id := fun h2 => he (hei.trans h2)
          simp [hei, hni]
        · simp [hei]

theorem upsertDevice_keys_mem (id : String) (d : DeviceInfo) (now : Nat)
    (t : List (String × DeviceInfo × Nat)) (j : String) :
    j ∈ (upsertDevice id d now t).map (·.1) ↔ j = id ∨ j ∈ t.map (·.1) := by
  induction t with
  | nil => simp [upsertDevice]
  | cons e t ih =>
      by_cases he : e.1 = id
      · simp only [upsertDevice, if_pos he, List.map_cons, List.mem_cons]
        rw [he]
        tauto
      · simp only [upsertDevice, if_neg he, List.map_cons, List.mem_cons, ih]
        tauto

theorem upsertDevice_keys_nodup (id : String) (d : DeviceInfo) (now : Nat)
    (t : List (String × DeviceInfo × Nat)) (h : (t.map (·.1)).Nodup) :
    ((upsertDevice id d now t).map (·.1)).Nodup := by
  induction t with
  | nil => simp [upsertDevice]
  | cons e t ih =>
      simp only [List.map_cons, List.nodup_cons] at h
      obtain ⟨hni, hnd⟩ := h
      by_cases he : e.1 = id
      · simp only [upsertDevice, if_pos he, List.map_cons, List.nodup_cons]
        exact ⟨he ▸ hni, hnd⟩
      · simp only [upsertDevice, if_neg he, List.map_cons, List.nodup_cons]
        refine ⟨fun hmem => ?_, ih hnd⟩
        rcases (upsertDevice_keys_mem id d now t e.1).1 hmem with h1 | h1
        · exact he h1
        · exact hni h1

theorem lookupTime_foldl (localId : String) (ds : List Datagram) :
    ∀ (t0 : List (String × DeviceInfo × Nat)) (i : String),
      lookupTime (ds.foldl (tableStep localId) t0) i =
        overrideTime (lastSeenNonLocal localId ds i) (lookupTime t0 i) := by
  induction ds with
  | nil =>
      intro t0 i
      by_cases hil : i = localId <;>
        simp [lastSeenNonLocal, lastSeenTime, overrideTime, hil]
  | cons d ds ih =>
      intro t0 i
      rw [List.foldl_cons, ih]
      by_cases hil : i = localId
      · simp only [lastSeenNonLocal, if_pos hil, overrideTime]
        by_cases hd : d.id = localId
        · simp [tableStep, hd]
        · have hne : ¬localId = d.id := fun h => hd h.symm
          simp [tableStep, hd, lookupTime_upsertDevice, hil, hne]
      · simp only [lastSeenNonLocal, if_neg hil]
        by_cases hd : d.id = localId
        · have hdi : ¬d.id = i := fun h => hil (h ▸ hd)
          simp only [tableStep, if_pos hd, lastSeenTime]
          cases lastSeenTime ds i <;> simp [hdi]
        · simp only [tableStep, if_neg hd, lookupTime_upsertDevice,
            lastSeenTime]
          by_cases hid : i = d.id
          · cases hls : lastSeenTime ds i <;>
              simp [overrideTime, hls, hid]
          · have hdi : ¬d.id = i := fun h => hid h.symm
            cases hls : lastSeenTime ds i <;>
              simp [overrideTime, hls, hid, hdi]

theorem tableAfter_keys_nodup (localId : String) (ds : List Datagram) :
    ∀ t0 : List (String × DeviceInfo × Nat), (t0.map (·.1)).Nodup →
      ((ds.foldl (tableStep localId) t0).map (·.1)).Nodup := by
  induction ds with
  | nil => intro t0 h; simpa using h
  | cons d ds ih =>
      intro t0 h
      rw [List.foldl_cons]
      apply ih
      by_cases hd : d.id = localId
      · simpa [tableStep, hd] using h
      · simp only [tableStep, if_neg hd]
        exact upsertDevice_keys_nodup _ _ _ _ h

theorem lookupTime_eq_of_mem (t : List (String × DeviceInfo × Nat))
    (hnd : (t.map (·.1)).Nodup) (e : String × DeviceInfo × Nat) (he : e ∈ t) :
    lookupTime t e.1 = some e.2.2 := by
  induction t with
  | nil => cases he
  | cons f t ih =>
      simp only [List.map_cons, List.nodup_cons] at hnd
      rcases List.mem_cons.1 he with rfl | hm
      · simp [lookupTime]
      · have hne : f.1 ≠ e.1 :=
          fun h => hnd.1 (h ▸ List.mem_map_of_mem (·.1) hm)
        simp [lookupTime, hne, ih hnd.2 hm]

theorem exists_mem_of_lookupTime (t : List (String × DeviceInfo × Nat))
    (i : String) (v : Nat) (h : lookupTime t i = some v) :
    ∃ e ∈ t, e.1 = i ∧ e.2.2 = v := by
  induction t with
  | nil => simp [lookupTime] at h
  | cons f t ih =>
      by_cases hf : f.1 = i
      · simp only [lookupTime, if_pos hf, Option.some.injEq] at h
        exact ⟨f, List.mem_cons_self _ _, hf, h⟩
      · simp only [lookupTime, if_neg hf] at h
        obtain ⟨e, hm, h1, h2⟩ := ih h
        exact ⟨e, List.mem_cons_of_mem _ hm, h1, h2⟩

theorem mem_pruneDevices_keys_iff (now : Nat)
    (t : List (String × DeviceInfo × Nat)) (hnd : (t.map (·.1)).Nodup)
    (i : String) :
    (i ∈ (pruneDevices now t).map (·.1)) ↔
      ∃ v, lookupTime t i = some v ∧ (now - v) / 1000 ≤ 10 := by
  constructor
  · intro h
    obtain ⟨e, hef, hei⟩ := List.mem_map.1 h
    obtain ⟨het, hep⟩ := List.mem_filter.1 hef
    refine ⟨e.2.2, hei ▸ lookupTime_eq_of_mem t hnd e het, ?_⟩
    simpa using hep
  · rintro ⟨v, hl, hpred⟩
    obtain ⟨e, hm, h1, h2⟩ := exists_mem_of_lookupTime t i v hl
    refine List.mem_map.2 ⟨e, List.mem_filter.2 ⟨hm, ?_⟩, h1⟩
    simp [pruneDevices, h2, hpred]

theorem lastSeenTime_isSome_iff (ds : List Datagram) (i : String) :
    (lastSeenTime ds i).isSome = true ↔ i ∈ ds.map Datagram.id := by
  induction ds with
  | nil => simp [lastSeenTime]
  | cons d ds ih =>
      simp only [lastSeenTime, List.map_cons, List.mem_cons]
      cases h : lastSeenTime ds i with
      | some t => simp [h] at ih; simp [ih]
      | none =>
          have hni : ¬i ∈ ds.map Datagram.id := by
            rw [← ih]
            simp [h]
          by_cases hd : d.id = i
          · simp [hd]
          · have hdi : ¬i = d.id := fun h2 => hd h2.symm
            simp [hd, hdi, hni]

theorem runState_datagrams_devices (localId : String) (ds : List Datagram) :
    ∀ s : CoordState,
      ((datagramEvents ds).foldl (stepState localId) s).devices =
        ds.foldl (tableStep localId) s.devices := by
  induction ds with
  | nil => intro s; rfl
  | cons d ds ih =>
      intro s
      have hcons : datagramEvents (d :: ds) =
          Event.discoveryDatagram d.id d.name d.ip d.time ::
            datagramEvents ds := rfl
      rw [hcons, List.foldl_cons, List.foldl_cons, ih]
      congr 1
      by_cases hd : d.id = localId <;> simp [stepState, step, tableStep, hd]

/-- Counterexample to claim C6: a device announced at t = 0 ms is still in
the peer table when the UI requests the list at t = 10500 ms, although its
entry is then more than 10 seconds old (the prune compares truncated whole
seconds with 10). -/
theorem C6_counterexample :
    (stepState cLocal
      (runState cLocal [.discoveryDatagram "device-one" "One" "10.0.0.2" 0])
      (.wsStartDiscovery 10500)).devices = [("device-one", cDevOne, 0)] ∧
    10500 - (0 : Nat) > 10 * 1000 :=
  ⟨by decide, by decide⟩

/-- Claim C6 amended: on a UI list request the peer table drops exactly the
entries whose age in truncated whole seconds exceeds 10 (that is, entries at
least 11 s old), so after any sequence of received discovery datagrams the
table size equals the number of distinct ids whose last sighting is within
that retention window, excluding the local id. -/
theorem C6_amended_peer_table (localId : String) (ds : List Datagram)
    (now : Nat) :
    (stepState localId (runState localId (datagramEvents ds))
      (.wsStartDiscovery now)).devices.length =
      distinctFreshCount ds localId now := by
  have hdev : (runState localId (datagramEvents ds)).devices =
      ds.foldl (tableStep localId) [] := by
    have h := runState_datagrams_devices localId ds initState
    simpa [runState, initState] using h
  have hstep : (stepState localId (runState localId (datagramEvents ds))
      (.wsStartDiscovery now)).devices =
      pruneDevices now (ds.foldl (tableStep localId) []) := by
    simp [stepState, step, hdev]
  rw [hstep, distinctFreshCount]
  have hnd : (((ds.foldl (tableStep localId) []).map (·.1))).Nodup :=
    tableAfter_keys_nodup localId ds [] (by simp)
  have hndP : ((pruneDevices now (ds.foldl (tableStep localId) [])).map
      (·.1)).Nodup := by
    apply List.Nodup.sublist _ hnd
    exact List.Sublist.map _ (List.filter_sublist _)
  have hndR : (((ds.map Datagram.id).dedup).filter fun i =>
      i != localId && freshAt ds now i).Nodup :=
    List.Nodup.filter _ (List.nodup_dedup (ds.map Datagram.id))
  have hperm : ((pruneDevices now (ds.foldl (tableStep localId) [])).map
        (·.1)).Perm
      (((ds.map Datagram.id).dedup).filter fun i =>
        i != localId && freshAt ds now i) := by
    rw [List.perm_ext_iff_of_nodup hndP hndR]
    intro a
    rw [mem_pruneDevices_keys_iff now _ hnd a, List.mem_filter,
      List.mem_dedup, ← lastSeenTime_isSome_iff]
    constructor
    · rintro ⟨v, hl, hfresh⟩
      rw [lookupTime_foldl localId ds [] a] at hl
      simp only [lookupTime, overrideTime, lastSeenNonLocal] at hl
      by_cases hal : a = localId
      · simp [hal] at hl
      · rw [if_neg hal] at hl
        cases hls : lastSeenTime ds a with
        | none => rw [hls] at hl; cases hl
        | some w =>
            rw [hls] at hl
            cases hl
            refine ⟨by simp [hls], ?_⟩
            simp [freshAt, hls, hfresh, bne_iff_ne, hal]
    · rintro ⟨hsome, hcond⟩
      simp only [Bool.and_eq_true, bne_iff_ne] at hcond
      obtain ⟨hal, hfresh⟩ := hcond
      rw [lookupTime_foldl localId ds [] a]
      cases hls : lastSeenTime ds a with
      | none => simp [hls] at hsome
      | some w =>
          refine ⟨w, ?_, ?_⟩
          · simp [overrideTime, lastSeenNonLocal, hal, hls]
          · have := hfresh
            simp only [freshAt, hls] at this
            simpa using this
  calc (pruneDevices now (ds.foldl (tableStep localId) [])).length
      = ((pruneDevices now (ds.foldl (tableStep localId) [])).map
          (·.1)).length := (List.length_map _ _).symm
    _ = (((ds.map Datagram.id).dedup).filter fun i =>
          i != localId && freshAt ds now i).length := hperm.length_eq

end ShareFlow
